import Mathlib

/-!
Shallow embedding of the sample code of
`MA.DataPlatforms.Streaming.Support.Library.SampleUsage` (Python).

The embedded parts are:
  * the open-data protobuf records the samples manipulate
    (`Packet`, `PeriodicDataPacket`, `SampleColumn`, `DoubleSample`, ...);
  * `ReceivedPacketDtoHandler.handle`
    (`sample_reader/received_packet_dto_handler.py`), modelled as a pure
    function from the parsed packet and the parameter-lookup service to an
    observable outcome (emitted sample records, logged errors, lookup calls,
    and whether the `assert` statement fired);
  * `PeriodicPacketGenerator` (`sample_writer/periodic_packet_generator.py`),
    modelled with an abstract sample-value function `sinOf : ℕ → α` standing
    for `math.sin(i * 2π/100)` (the floating-point sine is not reproduced;
    in exact arithmetic the accumulated `x_value` at loop index `i` is
    exactly `i * (2π/100)`, so the value of sample `i` depends on `i` only);
  * `PacketIdGenerator` (`sample_writer/packet_id_generator.py`);
  * `MockDataWriter.create_start_write_and_end_mock_session`
    (`sample_writer/mock_data_writer.py`), modelled as the trace of
    externally visible calls (session creation, packet writes with their
    packet type, destination stream and generated packet id, the info-packet
    write, and the final end-session call), parameterised by the success of
    the three service calls whose results the code inspects.

Machine integers (protobuf int64 timestamps/intervals) are modelled as `Int`:
the Python computations happen on unbounded `int`s before serialization.
-/

namespace SampleUsage

/-- `DataStatus` enum of the open-data protocol (variants used by the
sample code). -/
inductive DataStatus where
  | valid : DataStatus
  | invalid : DataStatus
deriving DecidableEq, Repr

/-- `DoubleSample`: one sample with a value and a status.  The value type is
abstract (`α`) because the Python value is a 64-bit float. -/
structure DoubleSample (α : Type) where
  value : α
  status : DataStatus
deriving DecidableEq, Repr

/-- `DoubleSampleList`: the repeated `samples` field. -/
structure DoubleSampleList (α : Type) where
  samples : List (DoubleSample α)
deriving DecidableEq, Repr

/-- `SampleColumn`: the protobuf `oneof list`.  The handler only inspects
whether `WhichOneof("list")` is `"double_samples"`; every other variant is
collapsed into `otherList`. -/
inductive SampleColumn (α : Type) where
  | double_samples : DoubleSampleList α → SampleColumn α
  | otherList : SampleColumn α
deriving DecidableEq, Repr

/-- `ParameterIdentifiers`: the repeated `parameter_identifiers` field. -/
structure ParameterIdentifiers where
  parameter_identifiers : List String
deriving DecidableEq, Repr

/-- `SampleDataFormat`: data-format identifier plus optionally embedded
parameter identifiers. -/
structure SampleDataFormat where
  data_format_identifier : String
  parameter_identifiers : ParameterIdentifiers
deriving DecidableEq, Repr

/-- `PeriodicDataPacket` of the open-data protocol. -/
structure PeriodicDataPacket (α : Type) where
  data_format : SampleDataFormat
  start_time : Int
  interval : Int
  columns : List (SampleColumn α)
deriving DecidableEq, Repr

/-- The outer `Packet` envelope, already parsed.  `content` is the parsed
periodic payload; the handler only deserializes `content` when `type` is
`"PeriodicData"`, so for other type tags the field is simply unused. -/
structure Packet (α : Type) where
  type : String
  content : PeriodicDataPacket α
deriving DecidableEq, Repr

/-- `ReceivedPacketDto`: the data source and the (parsed) packet bytes. -/
structure ReceivedPacketDto (α : Type) where
  data_source : String
  packet : Packet α
deriving DecidableEq, Repr

/-- `ApiResult` wrapper of the support library: a success flag and optional
data. -/
structure ApiResult (β : Type) where
  success : Bool
  data : Option β
deriving DecidableEq, Repr

/-- The DTO returned by `get_parameters_list`. -/
structure ParametersListDto where
  parameter_list : List String
deriving DecidableEq, Repr

/-- A `(timestamp, value, status)` record emitted (logged) by the handler
for one sample. -/
structure SampleRecord (α : Type) where
  timestamp : Int
  value : α
  status : DataStatus
deriving DecidableEq, Repr

/-- Observable outcome of one `handle` call: emitted sample records, error
messages passed to `logger.error`, the `(data_source, data_format_identifier)`
arguments of calls to `get_parameters_list`, and whether the `assert`
statement raised (an uncaught `AssertionError` escaping `handle`). -/
structure HandleOutcome (α : Type) where
  records : List (SampleRecord α)
  errors : List String
  lookup_calls : List (String × String)
  crashed : Bool
deriving DecidableEq, Repr

/-- Records emitted for one column when the parameter at its index matched:
`timestamp = start_time + j * interval` for sample index `j`, with the
sample's value and status copied unchanged.  Non-`double_samples` columns
yield nothing (`WhichOneof("list") == "double_samples"` guard). -/
def columnRecords (start_time interval : Int) : SampleColumn α → List (SampleRecord α)
  | SampleColumn.double_samples l =>
      l.samples.mapIdx fun j s =>
        { timestamp := start_time + (j : Int) * interval
          value := s.value
          status := s.status }
  | SampleColumn.otherList => []

/-- The projection loop `for i in range(len(parameters))` over the
parameter/column pairs: a non-matching parameter is skipped (`continue`),
a matching one contributes its column's records.  The loop does not stop at
the first match. -/
def projectPairs (interested : String) (start_time interval : Int) :
    List (String × SampleColumn α) → List (SampleRecord α)
  | [] => []
  | (p, c) :: rest =>
      (if p = interested then columnRecords start_time interval c else []) ++
        projectPairs interested start_time interval rest

/-- The tail of `handle` after the parameter list has been resolved: the
`assert len(parameters) == len(periodic_packet.columns)` check (modelled as
`crashed := true`, since a failing `assert` raises an uncaught
`AssertionError`), then the projection loop. -/
def handleWithParams (interested : String) (pp : PeriodicDataPacket α)
    (params : List String) (calls : List (String × String)) : HandleOutcome α :=
  if params.length = pp.columns.length then
    { records := projectPairs interested pp.start_time pp.interval (params.zip pp.columns)
      errors := []
      lookup_calls := calls
      crashed := false }
  else
    { records := [], errors := [], lookup_calls := calls, crashed := true }

/-- `ReceivedPacketDtoHandler.handle`.  `svc` models
`IDataFormatManagementService.get_parameters_list`, taking the data source
and the data-format identifier.  `interested` is the parameter of interest
fixed at construction (`"vCar:Chassis"` in the sample). -/
def handle (svc : String → String → ApiResult ParametersListDto)
    (interested : String) (dto : ReceivedPacketDto α) : HandleOutcome α :=
  if dto.packet.type ≠ "PeriodicData" then
    { records := [], errors := [], lookup_calls := [], crashed := false }
  else if 0 < dto.packet.content.data_format.parameter_identifiers.parameter_identifiers.length then
    handleWithParams interested dto.packet.content
      dto.packet.content.data_format.parameter_identifiers.parameter_identifiers []
  else if (svc dto.data_source dto.packet.content.data_format.data_format_identifier).success = true ∧
      (svc dto.data_source dto.packet.content.data_format.data_format_identifier).data ≠ none then
    handleWithParams interested dto.packet.content
      (((svc dto.data_source dto.packet.content.data_format.data_format_identifier).data.getD
          { parameter_list := [] }).parameter_list)
      [(dto.data_source, dto.packet.content.data_format.data_format_identifier)]
  else
    { records := [], errors := ["Failed to get parameters"]
      lookup_calls := [(dto.data_source, dto.packet.content.data_format.data_format_identifier)]
      crashed := false }

/-- The interested parameter hard-coded in the sample handler. -/
def interestedParameter : String := "vCar:Chassis"

/-- The parameter-resolution step of `handle`, factored out: the embedded
`parameter_identifiers` list when it is non-empty, otherwise the
`parameter_list` returned by a successful, non-empty `get_parameters_list`
call, otherwise `none` (the error branch).  The conditions are exactly
those of `handle`. -/
def resolvedParams (svc : String → String → ApiResult ParametersListDto)
    (dto : ReceivedPacketDto α) : Option (List String) :=
  if 0 < dto.packet.content.data_format.parameter_identifiers.parameter_identifiers.length then
    some dto.packet.content.data_format.parameter_identifiers.parameter_identifiers
  else if (svc dto.data_source dto.packet.content.data_format.data_format_identifier).success = true ∧
      (svc dto.data_source dto.packet.content.data_format.data_format_identifier).data ≠ none then
    some (((svc dto.data_source dto.packet.content.data_format.data_format_identifier).data.getD
      { parameter_list := [] }).parameter_list)
  else
    none

/-! ### Concrete scenario fixtures

Inputs for the spec's concrete projection scenario (parameter list
`["A", "B", "vCar:Chassis"]`, three columns) and for the non-double-column
scenario, each parameterised by the embedded parameter-identifier list so
the same payload can be driven through the embedded-list path or the
lookup path of `handle`. -/

/-- Lookup service stub whose `get_parameters_list` always fails. -/
def failSvc : String → String → ApiResult ParametersListDto :=
  fun _ _ => { success := false, data := none }

/-- The parameter list of the spec's concrete scenario. -/
def vcarParameterList : List String := ["A", "B", "vCar:Chassis"]

/-- The double samples of the third column in the concrete scenario. -/
def vcarSamples : List (DoubleSample Int) :=
  [{ value := 42, status := DataStatus.valid },
   { value := 7, status := DataStatus.invalid }]

/-- The concrete scenario envelope: three columns, the third the
double-sample column of `"vCar:Chassis"`. -/
def vcarDto (embedded : List String) : ReceivedPacketDto Int :=
  { data_source := "SampleDataSource"
    packet :=
      { type := "PeriodicData"
        content :=
          { data_format :=
              { data_format_identifier := "df"
                parameter_identifiers := { parameter_identifiers := embedded } }
            start_time := 1000
            interval := 10
            columns := [SampleColumn.otherList, SampleColumn.otherList,
              SampleColumn.double_samples { samples := vcarSamples }] } } }

/-- Lookup service stub returning the concrete scenario's parameter list. -/
def vcarListSvc : String → String → ApiResult ParametersListDto :=
  fun _ _ => { success := true, data := some { parameter_list := vcarParameterList } }

/-- An envelope whose single column, matching the parameter of interest, is
not a double-sample column. -/
def nonDoubleDto (embedded : List String) : ReceivedPacketDto Int :=
  { data_source := "SampleDataSource"
    packet :=
      { type := "PeriodicData"
        content :=
          { data_format :=
              { data_format_identifier := "df"
                parameter_identifiers := { parameter_identifiers := embedded } }
            start_time := 0
            interval := 1
            columns := [SampleColumn.otherList] } } }

/-- Lookup service stub returning just the parameter of interest. -/
def vcarOnlySvc : String → String → ApiResult ParametersListDto :=
  fun _ _ => { success := true, data := some { parameter_list := ["vCar:Chassis"] } }

/-! ## `PeriodicPacketGenerator` (sample_writer/periodic_packet_generator.py) -/

/-- The state of a `PeriodicPacketGenerator`: the fields set in `__init__`.
`first_timestamp` is the running timestamp cursor, mutated by
`generate_packets`. -/
structure PeriodicPacketGenerator where
  interval : Int
  data_format_id : String
  first_timestamp : Int
deriving DecidableEq, Repr

namespace PeriodicPacketGenerator

/-- `__init__(frequency, data_format_id, first_timestamp)`:
`interval = int(1E9 / frequency)`, modelled in exact integer arithmetic as
`10^9 / frequency` (integer division; the Python float division followed by
`int` truncation agrees for the frequencies used by the samples). -/
def init (frequency : ℕ) (data_format_id : String) (first_timestamp : Int) :
    PeriodicPacketGenerator :=
  { interval := (10 ^ 9 : Int) / (frequency : Int)
    data_format_id := data_format_id
    first_timestamp := first_timestamp }

/-- The fixed batch size `sample_count = 100`. -/
def sample_count : ℕ := 100

/-- `generate_packets`, with the floating-point sine abstracted: `sinOf i`
stands for `math.sin(x_value)` at loop index `i`, where the accumulated
`x_value` equals `i * (2π / sample_count)` in exact arithmetic.  Returns the
produced payload together with the updated generator state (the timestamp
cursor advanced by `interval * sample_count`).  The per-sample `time.sleep`
call is modelled separately by `sleepDurationNs`. -/
def generate_packets (sinOf : ℕ → α) (g : PeriodicPacketGenerator) :
    PeriodicDataPacket α × PeriodicPacketGenerator :=
  let double_samples :=
    (List.range sample_count).map fun i =>
      ({ value := sinOf i, status := DataStatus.valid } : DoubleSample α)
  let packet : PeriodicDataPacket α :=
    { data_format :=
        { data_format_identifier := g.data_format_id
          parameter_identifiers := { parameter_identifiers := [] } }
      start_time := g.first_timestamp
      interval := g.interval
      columns := [SampleColumn.double_samples { samples := double_samples }] }
  (packet, { g with first_timestamp := g.first_timestamp + g.interval * sample_count })

/-- The generator state after `n` invocations of `generate_packets`. -/
def stateAfter (sinOf : ℕ → α) (g : PeriodicPacketGenerator) : ℕ → PeriodicPacketGenerator
  | 0 => g
  | n + 1 => (generate_packets sinOf (stateAfter sinOf g n)).2

/-- The nanosecond amount the code asks `time.sleep` to wait for one sample:
`time.sleep((self.__interval - (end_time - start_time)) / 1E9)` with
`elapsed = end_time - start_time` the compute time of that sample.  The
division by `1E9` only converts to seconds; the sign is the sign of
`interval - elapsed`. -/
def sleepDurationNs (interval elapsed : Int) : Int :=
  interval - elapsed

end PeriodicPacketGenerator

/-! ## `PacketIdGenerator` (sample_writer/packet_id_generator.py) -/

namespace PacketIdGenerator

/-- `__init__`: `self.__packet_id = 0`. -/
def init : ℕ := 0

/-- `get_packet_id`: returns the current counter and increments it. -/
def get_packet_id (packet_id : ℕ) : ℕ × ℕ :=
  (packet_id, packet_id + 1)

/-- Counter state after `n` calls to `get_packet_id` on a freshly
constructed generator. -/
def counterAfter : ℕ → ℕ
  | 0 => init
  | n + 1 => (get_packet_id (counterAfter n)).2

/-- The value returned by the `n`-th call (`n ≥ 1`, 1-indexed) to
`get_packet_id` on a freshly constructed generator. -/
def nthPacketId (n : ℕ) : ℕ :=
  (get_packet_id (counterAfter (n - 1))).1

end PacketIdGenerator

/-! ## `MockDataWriter` (sample_writer/mock_data_writer.py)

`create_start_write_and_end_mock_session` is modelled as the trace of its
externally visible calls.  Each packet write records the packet's type tag,
the destination stream, and the id obtained from the `PacketIdGenerator`;
the session-info packet goes through `write_info` instead of `write_data`.
The three service results the code inspects (`create_new_session`, the
configuration-packet `write_data`, `get_parameter_data_format_id`) are
parameters of the model; all other call results are ignored by the code. -/

/-- One externally visible call of the mock writer. -/
inductive WriteEvent where
  | createSession : WriteEvent
  | writeData (ptype : String) (stream : String) (id : ℕ) : WriteEvent
  | writeInfo (ptype : String) (id : ℕ) : WriteEvent
  | endSessionCall : WriteEvent
deriving DecidableEq, Repr

namespace MockDataWriter

/-- `self.__streams = ["", "Stream1"]`. -/
def streams : List String := ["", "Stream1"]

/-- `self.__number_of_packets = 100`. -/
def number_of_packets : ℕ := 100

/-- Sending one packet of type `ptype` to each stream of `sts`, threading
the packet-id counter (used by `__start_session` and `__end_session`). -/
def sendToStreams (ptype : String) : List String → ℕ → List WriteEvent × ℕ
  | [], n => ([], n)
  | st :: rest, n =>
      let tail := sendToStreams ptype rest (n + 1)
      (WriteEvent.writeData ptype st n :: tail.1, tail.2)

/-- `__end_session`: an `"EndOfSession"` packet to every stream, then the
`end_session` call on the session-management service. -/
def endSessionEvents (n : ℕ) : List WriteEvent × ℕ :=
  let evs := sendToStreams "EndOfSession" streams n
  (evs.1 ++ [WriteEvent.endSessionCall], evs.2)

/-- The loop sending `k` `"PeriodicData"` packets to `"Stream1"`. -/
def sendPeriodicData : ℕ → ℕ → List WriteEvent × ℕ
  | 0, n => ([], n)
  | k + 1, n =>
      let tail := sendPeriodicData k (n + 1)
      (WriteEvent.writeData "PeriodicData" "Stream1" n :: tail.1, tail.2)

/-- `create_start_write_and_end_mock_session`, as the trace of its
externally visible calls.  `createOk` is the success of
`create_new_session`, `configOk` the success of writing the configuration
packet, `dataFormatOk` the success of `get_parameter_data_format_id`. -/
def create_start_write_and_end_mock_session
    (createOk configOk dataFormatOk : Bool) : List WriteEvent :=
  if createOk = false then [WriteEvent.createSession]
  else
    let start := sendToStreams "NewSession" streams PacketIdGenerator.init
    let configEv := WriteEvent.writeData "Configuration" "" start.2
    let n2 := start.2 + 1
    if configOk = false then
      WriteEvent.createSession :: start.1 ++ [configEv] ++ (endSessionEvents n2).1
    else if dataFormatOk = false then
      WriteEvent.createSession :: start.1 ++ [configEv] ++ (endSessionEvents n2).1
    else
      let markerEv := WriteEvent.writeData "Marker" "" n2
      let infoEv := WriteEvent.writeInfo "SessionInfo" (n2 + 1)
      let dataEvs := sendPeriodicData number_of_packets (n2 + 2)
      WriteEvent.createSession :: start.1 ++ [configEv, markerEv, infoEv] ++
        dataEvs.1 ++ (endSessionEvents dataEvs.2).1

end MockDataWriter

/-! ## Helper lemmas -/

/-- `handleWithParams` reports exactly the lookup calls it is given. -/
lemma handleWithParams_lookup_calls (interested : String) (pp : PeriodicDataPacket α)
    (params : List String) (calls : List (String × String)) :
    (handleWithParams interested pp params calls).lookup_calls = calls := by
  unfold handleWithParams
  split <;> rfl

/-- Reduction of `handle` on a periodic packet with a non-empty embedded
parameter-identifier list. -/
lemma handle_periodic_embedded (svc : String → String → ApiResult ParametersListDto)
    (interested : String) (dto : ReceivedPacketDto α)
    (ht : dto.packet.type = "PeriodicData")
    (hne : dto.packet.content.data_format.parameter_identifiers.parameter_identifiers ≠ []) :
    handle svc interested dto =
      handleWithParams interested dto.packet.content
        dto.packet.content.data_format.parameter_identifiers.parameter_identifiers [] := by
  unfold handle
  rw [ht, if_neg (by simp), if_pos (List.length_pos.mpr hne)]

/-- The interval field of the generator state never changes across
invocations. -/
lemma stateAfter_interval (sinOf : ℕ → α) (g : PeriodicPacketGenerator) (n : ℕ) :
    (PeriodicPacketGenerator.stateAfter sinOf g n).interval = g.interval := by
  induction n with
  | zero => rfl
  | succ n ih => exact ih

/-- The packet-id counter after `n` calls equals `n`. -/
lemma counterAfter_eq (n : ℕ) : PacketIdGenerator.counterAfter n = n := by
  induction n with
  | zero => rfl
  | succ n ih =>
    simp [PacketIdGenerator.counterAfter, PacketIdGenerator.get_packet_id, ih]

/-- Positive-case reduction of `handleWithParams`: matching lengths pass the
`assert` and run the projection loop. -/
lemma handleWithParams_pos (interested : String) (pp : PeriodicDataPacket α)
    (params : List String) (calls : List (String × String))
    (hlen : params.length = pp.columns.length) :
    handleWithParams interested pp params calls =
      { records := projectPairs interested pp.start_time pp.interval (params.zip pp.columns)
        errors := [], lookup_calls := calls, crashed := false } := by
  unfold handleWithParams
  rw [if_pos hlen]

/-- Reduction of `handle` on a periodic packet with an empty embedded
parameter-identifier list: the lookup service is consulted. -/
lemma handle_periodic_lookup (svc : String → String → ApiResult ParametersListDto)
    (interested : String) (dto : ReceivedPacketDto α)
    (ht : dto.packet.type = "PeriodicData")
    (hemp : dto.packet.content.data_format.parameter_identifiers.parameter_identifiers = []) :
    handle svc interested dto =
      if (svc dto.data_source dto.packet.content.data_format.data_format_identifier).success = true ∧
          (svc dto.data_source dto.packet.content.data_format.data_format_identifier).data ≠ none then
        handleWithParams interested dto.packet.content
          (((svc dto.data_source dto.packet.content.data_format.data_format_identifier).data.getD
              { parameter_list := [] }).parameter_list)
          [(dto.data_source, dto.packet.content.data_format.data_format_identifier)]
      else
        { records := [], errors := ["Failed to get parameters"]
          lookup_calls := [(dto.data_source, dto.packet.content.data_format.data_format_identifier)]
          crashed := false } := by
  unfold handle
  rw [ht, if_neg (by simp), if_neg (by rw [hemp]; simp)]

/-- Whenever `resolvedParams` succeeds on a periodic packet, `handle` runs
`handleWithParams` on the resolved list — with no lookup call recorded on
the embedded path, or one on the lookup path. -/
lemma handle_eq_handleWithParams_of_resolved
    (svc : String → String → ApiResult ParametersListDto)
    (interested : String) (dto : ReceivedPacketDto α) (ps : List String)
    (ht : dto.packet.type = "PeriodicData")
    (hres : resolvedParams svc dto = some ps) :
    handle svc interested dto = handleWithParams interested dto.packet.content ps [] ∨
    handle svc interested dto = handleWithParams interested dto.packet.content ps
      [(dto.data_source, dto.packet.content.data_format.data_format_identifier)] := by
  unfold resolvedParams at hres
  unfold handle
  rw [ht, if_neg (by simp)]
  by_cases h1 :
      0 < dto.packet.content.data_format.parameter_identifiers.parameter_identifiers.length
  · rw [if_pos h1] at hres ⊢
    left
    injection hres with h
    rw [h]
  · rw [if_neg h1] at hres ⊢
    by_cases h2 :
        (svc dto.data_source dto.packet.content.data_format.data_format_identifier).success = true ∧
          (svc dto.data_source dto.packet.content.data_format.data_format_identifier).data ≠ none
    · rw [if_pos h2] at hres ⊢
      right
      injection hres with h
      rw [h]
    · rw [if_neg h2] at hres
      exact absurd hres (by simp)

/-- A projection loop over pairs none of whose matching entries produce
records yields no records. -/
lemma projectPairs_eq_nil (interested : String) (st iv : Int)
    (pcs : List (String × SampleColumn α))
    (h : ∀ pc ∈ pcs, pc.1 = interested → columnRecords st iv pc.2 = []) :
    projectPairs interested st iv pcs = [] := by
  induction pcs with
  | nil => rfl
  | cons pc0 rest ih =>
    obtain ⟨p, c⟩ := pc0
    unfold projectPairs
    rw [ih (by intro q hq hqi; exact h q (List.mem_cons_of_mem _ hq) hqi), List.append_nil]
    by_cases hp : p = interested
    · exact h (p, c) (List.mem_cons_self _ _) hp ▸ if_pos hp
    · exact if_neg hp

/-- A projection loop over pairs none of which matches yields no records. -/
lemma projectPairs_no_match (interested : String) (st iv : Int)
    (pcs : List (String × SampleColumn α))
    (h : ∀ pc ∈ pcs, pc.1 ≠ interested) :
    projectPairs interested st iv pcs = [] :=
  projectPairs_eq_nil interested st iv pcs
    (by intro pc hpc hfst; exact absurd hfst (h pc hpc))

/-- When the parameter of interest occurs at exactly one index of the
parameter/column pairs, the projection loop emits exactly that column's
records. -/
lemma projectPairs_unique_match (interested : String) (st iv : Int)
    (pcs : List (String × SampleColumn α)) :
    ∀ (i : ℕ) (c : SampleColumn α),
      pcs[i]? = some (interested, c) →
      (∀ (k : ℕ) (pc : String × SampleColumn α), pcs[k]? = some pc → pc.1 = interested → k = i) →
      projectPairs interested st iv pcs = columnRecords st iv c := by
  induction pcs with
  | nil => intro i c hget _; simp at hget
  | cons pc0 rest ih =>
    obtain ⟨p, c0⟩ := pc0
    intro i c hget huniq
    cases i with
    | zero =>
      simp only [List.getElem?_cons_zero, Option.some.injEq, Prod.mk.injEq] at hget
      obtain ⟨hp, hc⟩ := hget
      have hrest : projectPairs interested st iv rest = [] := by
        apply projectPairs_no_match
        intro q hq hqi
        obtain ⟨k, hkq⟩ := List.mem_iff_getElem?.mp hq
        exact Nat.succ_ne_zero k (huniq (k + 1) q (by simpa using hkq) hqi)
      unfold projectPairs
      rw [if_pos hp, hc, hrest, List.append_nil]
    | succ j =>
      have hp : p ≠ interested := by
        intro hp
        exact absurd (huniq 0 (p, c0) (by simp) hp) (by simp)
      rw [List.getElem?_cons_succ] at hget
      have huniq' : ∀ (k : ℕ) (pc : String × SampleColumn α),
          rest[k]? = some pc → pc.1 = interested → k = j := by
        intro k q hk hqi
        have hs := huniq (k + 1) q (by simpa using hk) hqi
        omega
      unfold projectPairs
      rw [if_neg hp, List.nil_append, ih j c hget huniq']

/-- Through `handleWithParams`, a unique match at index `i` whose column is
a double-sample column projects exactly that column's samples, whatever
lookup calls were recorded. -/
lemma handleWithParams_projection (interested : String) (pp : PeriodicDataPacket α)
    (ps : List String) (calls : List (String × String)) (i : ℕ)
    (ss : List (DoubleSample α))
    (hlen : ps.length = pp.columns.length)
    (hmatch : ps[i]? = some interested)
    (huniq : ∀ k : ℕ, ps[k]? = some interested → k = i)
    (hcol : pp.columns[i]? = some (SampleColumn.double_samples { samples := ss })) :
    (handleWithParams interested pp ps calls).records =
      ss.mapIdx (fun j s =>
        { timestamp := pp.start_time + (j : Int) * pp.interval
          value := s.value
          status := s.status }) ∧
    (handleWithParams interested pp ps calls).records.length = ss.length ∧
    (handleWithParams interested pp ps calls).crashed = false := by
  have hproj : projectPairs interested pp.start_time pp.interval (ps.zip pp.columns) =
      columnRecords pp.start_time pp.interval
        (SampleColumn.double_samples { samples := ss }) := by
    refine projectPairs_unique_match _ _ _ _ i
      (SampleColumn.double_samples { samples := ss }) ?_ ?_
    · exact List.getElem?_zip_eq_some.mpr ⟨hmatch, hcol⟩
    · intro k pc hk hpc
      exact huniq k (by rw [← hpc]; exact (List.getElem?_zip_eq_some.mp hk).1)
  rw [handleWithParams_pos _ _ _ _ hlen, hproj]
  refine ⟨rfl, ?_, rfl⟩
  simp [columnRecords]

/-- Through `handleWithParams`, matching parameters whose columns are all
non-double project nothing and raise no error, whatever lookup calls were
recorded. -/
lemma handleWithParams_no_double (interested : String) (pp : PeriodicDataPacket α)
    (ps : List String) (calls : List (String × String))
    (hlen : ps.length = pp.columns.length)
    (hcols : ∀ pc ∈ ps.zip pp.columns,
      pc.1 = interested → pc.2 = SampleColumn.otherList) :
    handleWithParams interested pp ps calls =
      { records := [], errors := [], lookup_calls := calls, crashed := false } := by
  rw [handleWithParams_pos _ _ _ _ hlen]
  have hproj : projectPairs interested pp.start_time pp.interval (ps.zip pp.columns) = [] := by
    apply projectPairs_eq_nil
    intro pc hpc hfst
    rw [hcols pc hpc hfst]
    rfl
  rw [hproj]

/-! ## Claims -/

/-- C7: for every received envelope whose type tag is not `"PeriodicData"`,
`handle` emits zero sample records, logs no error, never calls the
parameter-lookup service, does not raise, and returns normally. -/
theorem non_periodic_packet_is_noop (svc : String → String → ApiResult ParametersListDto)
    (interested : String) (dto : ReceivedPacketDto α)
    (ht : dto.packet.type ≠ "PeriodicData") :
    handle svc interested dto =
      { records := [], errors := [], lookup_calls := [], crashed := false } := by
  unfold handle
  rw [if_pos ht]

/-- Witness for C7: a concrete `"Marker"` envelope is a no-op. -/
theorem non_periodic_packet_is_noop_witness :
    ("Marker" : String) ≠ "PeriodicData" ∧
    handle (α := Int) (fun _ _ => { success := false, data := none }) interestedParameter
        { data_source := "SampleDataSource"
          packet :=
            { type := "Marker"
              content :=
                { data_format :=
                    { data_format_identifier := "df"
                      parameter_identifiers := { parameter_identifiers := [] } }
                  start_time := 0, interval := 1, columns := [] } } } =
      { records := [], errors := [], lookup_calls := [], crashed := false } :=
  ⟨by decide, non_periodic_packet_is_noop _ _ _ (by decide)⟩

/-- C1 (evaluation at the failing input): a `"PeriodicData"` envelope whose
embedded parameter list has one entry while the payload has zero columns
makes the `assert len(parameters) == len(periodic_packet.columns)` statement
fail: `handle` emits zero records and logs no malformed-record error — the
`AssertionError` escapes `handle` uncaught (`crashed = true`). -/
theorem mismatched_parameter_count_raises_assertion :
    handle (α := Int) (fun _ _ => { success := false, data := none }) interestedParameter
        { data_source := "SampleDataSource"
          packet :=
            { type := "PeriodicData"
              content :=
                { data_format :=
                    { data_format_identifier := "df"
                      parameter_identifiers := { parameter_identifiers := ["A"] } }
                  start_time := 0, interval := 10000000, columns := [] } } } =
      { records := [], errors := [], lookup_calls := [], crashed := true } := by
  decide

/-- C4 (evaluation at the failing input): with the sample's 100 Hz generator
(nominal interval 10,000,000 ns), a per-sample compute time of 10,000,001 ns
makes the code hand `time.sleep` the negative duration `-1` ns — the sleep
duration is not clamped to zero. -/
theorem sleep_duration_negative_on_overrun :
    PeriodicPacketGenerator.sleepDurationNs
        (PeriodicPacketGenerator.init 100 "SinDataFormat" 0).interval 10000001 = -1 ∧
    PeriodicPacketGenerator.sleepDurationNs
        (PeriodicPacketGenerator.init 100 "SinDataFormat" 0).interval 10000001 < 0 := by
  decide

/-- C3: after `n` invocations of `generate_packets` the timestamp cursor
equals `first_timestamp + n * (100 * interval)`, and the payload produced by
invocation `n` (0-indexed) has that same `start_time` — so consecutive
invocations cover contiguous, non-overlapping ranges of 100 intervals. -/
theorem generator_cursor_progression (sinOf : ℕ → α) (g : PeriodicPacketGenerator) (n : ℕ) :
    (PeriodicPacketGenerator.stateAfter sinOf g n).first_timestamp =
      g.first_timestamp + (n : Int) * (100 * g.interval) ∧
    (PeriodicPacketGenerator.generate_packets sinOf
        (PeriodicPacketGenerator.stateAfter sinOf g n)).1.start_time =
      g.first_timestamp + (n : Int) * (100 * g.interval) := by
  have key : ∀ m : ℕ, (PeriodicPacketGenerator.stateAfter sinOf g m).first_timestamp =
      g.first_timestamp + (m : Int) * (100 * g.interval) := by
    intro m
    induction m with
    | zero => simp [PeriodicPacketGenerator.stateAfter]
    | succ m ih =>
      have hstep : (PeriodicPacketGenerator.stateAfter sinOf g (m + 1)).first_timestamp =
          (PeriodicPacketGenerator.stateAfter sinOf g m).first_timestamp +
            (PeriodicPacketGenerator.stateAfter sinOf g m).interval *
              (PeriodicPacketGenerator.sample_count : Int) := rfl
      rw [hstep, stateAfter_interval, ih]
      have hc : (PeriodicPacketGenerator.sample_count : Int) = 100 := by decide
      rw [hc]
      push_cast
      ring
  refine ⟨key n, ?_⟩
  have hstart : (PeriodicPacketGenerator.generate_packets sinOf
      (PeriodicPacketGenerator.stateAfter sinOf g n)).1.start_time =
      (PeriodicPacketGenerator.stateAfter sinOf g n).first_timestamp := rfl
  rw [hstart, key n]

/-- C6: every invocation returns exactly one payload with a single column of
exactly 100 double samples — sample `i` carrying the sine value at the
`i`-th `2π/100` increment (`sinOf i`) and status valid — the data-format
identifier fixed at construction, `start_time` equal to the cursor, and
`interval = ⌊1e9 / frequency⌋`; for 100 Hz the interval is 10,000,000 ns. -/
theorem generate_packets_output_shape (sinOf : ℕ → α) (frequency : ℕ)
    (dfi : String) (t0 : Int) :
    (PeriodicPacketGenerator.generate_packets sinOf
        (PeriodicPacketGenerator.init frequency dfi t0)).1.columns =
      [SampleColumn.double_samples
        { samples := (List.range 100).map fun i =>
            { value := sinOf i, status := DataStatus.valid } }] ∧
    (PeriodicPacketGenerator.generate_packets sinOf
        (PeriodicPacketGenerator.init frequency dfi t0)).1.data_format.data_format_identifier = dfi ∧
    (PeriodicPacketGenerator.generate_packets sinOf
        (PeriodicPacketGenerator.init frequency dfi t0)).1.start_time = t0 ∧
    (PeriodicPacketGenerator.generate_packets sinOf
        (PeriodicPacketGenerator.init frequency dfi t0)).1.interval =
      (10 ^ 9 : Int) / (frequency : Int) ∧
    (PeriodicPacketGenerator.init 100 dfi t0).interval = 10000000 :=
  ⟨rfl, rfl, rfl, rfl, by norm_num [PeriodicPacketGenerator.init]⟩

/-- C9: the packet id generator starts at 0 and is strictly increasing: the
`n`-th call (`n ≥ 1`) returns `n - 1`, which exceeds every previously
returned value. -/
theorem packet_id_strictly_increasing (n : ℕ) (h : 1 ≤ n) :
    PacketIdGenerator.nthPacketId n = n - 1 ∧
    ∀ m : ℕ, 1 ≤ m → m < n →
      PacketIdGenerator.nthPacketId m < PacketIdGenerator.nthPacketId n := by
  have hval : ∀ k : ℕ, PacketIdGenerator.nthPacketId k = k - 1 := by
    intro k
    unfold PacketIdGenerator.nthPacketId
    rw [counterAfter_eq]
    rfl
  refine ⟨hval n, ?_⟩
  intro m hm hmn
  rw [hval m, hval n]
  omega

/-- Witness for C9: the third call returns 2. -/
theorem packet_id_strictly_increasing_witness :
    1 ≤ 3 ∧ PacketIdGenerator.nthPacketId 3 = 3 - 1 :=
  ⟨by decide, (packet_id_strictly_increasing 3 (by decide)).1⟩

/-- C8: in a run where session creation, the configuration write and the
data-format lookup all succeed, the write order is exactly: session
creation, `"NewSession"` to every configured stream, one `"Configuration"`
packet, the `"Marker"` and `"SessionInfo"` packets, 100 `"PeriodicData"`
packets to `"Stream1"`, `"EndOfSession"` to every configured stream, then
the end-session call — with packet ids assigned sequentially from 0. -/
theorem successful_run_write_order :
    MockDataWriter.create_start_write_and_end_mock_session true true true =
      [WriteEvent.createSession,
       WriteEvent.writeData "NewSession" "" 0,
       WriteEvent.writeData "NewSession" "Stream1" 1,
       WriteEvent.writeData "Configuration" "" 2,
       WriteEvent.writeData "Marker" "" 3,
       WriteEvent.writeInfo "SessionInfo" 4] ++
      ((List.range 100).map fun i => WriteEvent.writeData "PeriodicData" "Stream1" (5 + i)) ++
      [WriteEvent.writeData "EndOfSession" "" 105,
       WriteEvent.writeData "EndOfSession" "Stream1" 106,
       WriteEvent.endSessionCall] := by
  set_option maxRecDepth 8000 in decide

/-- C2: on a periodic payload whose resolved parameter list — the embedded
list or, when that is empty, the one returned by the lookup service —
has as many entries as the payload has columns, with the configured
parameter matching at exactly index `i` and column `i` a double-sample
column, `handle` emits exactly one record per sample of that column —
record `j` carrying `start_time + j * interval`, the sample's value and its
status unchanged — and does not raise. -/
theorem periodic_projection_emits_column_samples
    (svc : String → String → ApiResult ParametersListDto)
    (dto : ReceivedPacketDto α) (ps : List String) (i : ℕ) (ss : List (DoubleSample α))
    (ht : dto.packet.type = "PeriodicData")
    (hres : resolvedParams svc dto = some ps)
    (hlen : ps.length = dto.packet.content.columns.length)
    (hmatch : ps[i]? = some interestedParameter)
    (huniq : ∀ k : ℕ, ps[k]? = some interestedParameter → k = i)
    (hcol : dto.packet.content.columns[i]? =
      some (SampleColumn.double_samples { samples := ss })) :
    (handle svc interestedParameter dto).records =
      ss.mapIdx (fun j s =>
        { timestamp := dto.packet.content.start_time + (j : Int) * dto.packet.content.interval
          value := s.value
          status := s.status }) ∧
    (handle svc interestedParameter dto).records.length = ss.length ∧
    (handle svc interestedParameter dto).crashed = false := by
  rcases handle_eq_handleWithParams_of_resolved svc interestedParameter dto ps ht hres
    with h | h <;>
    rw [h] <;>
    exact handleWithParams_projection interestedParameter dto.packet.content ps _ i ss
      hlen hmatch huniq hcol

/-- Witness for C2, the concrete scenario of the claim driven through both
resolution paths: parameter list `["A", "B", "vCar:Chassis"]`, three
columns, the third a double-sample column — projecting `"vCar:Chassis"`
yields exactly that column's samples with statuses preserved and timestamps
`start_time + j * interval`, whether the list is embedded in the payload or
resolved through the lookup service. -/
theorem periodic_projection_emits_column_samples_witness :
    (handle failSvc interestedParameter (vcarDto vcarParameterList)).records =
      [{ timestamp := 1000, value := 42, status := DataStatus.valid },
       { timestamp := 1010, value := 7, status := DataStatus.invalid }] ∧
    (handle vcarListSvc interestedParameter (vcarDto [])).records =
      [{ timestamp := 1000, value := 42, status := DataStatus.valid },
       { timestamp := 1010, value := 7, status := DataStatus.invalid }] := by
  have huniq2 : ∀ k : ℕ, vcarParameterList[k]? = some interestedParameter → k = 2 := by
    intro k hk
    match k with
    | 0 => exact absurd hk (by decide)
    | 1 => exact absurd hk (by decide)
    | 2 => rfl
    | n + 3 => simp [vcarParameterList] at hk
  constructor
  · have h := (periodic_projection_emits_column_samples failSvc
      (vcarDto vcarParameterList) vcarParameterList 2 vcarSamples
      rfl (by decide) (by decide) (by decide) huniq2 (by decide)).1
    rw [h]
    decide
  · have h := (periodic_projection_emits_column_samples vcarListSvc
      (vcarDto []) vcarParameterList 2 vcarSamples
      rfl (by decide) (by decide) (by decide) huniq2 (by decide)).1
    rw [h]
    decide

/-- C5: on a periodic packet, a non-empty embedded parameter-identifier list
is used directly and the lookup service is never called; with an empty
embedded list the service is called once with the data source and
data-format identifier, and an unsuccessful or empty result makes `handle`
log one error and emit zero records — no retry, no partial projection. -/
theorem parameter_resolution_paths (svc : String → String → ApiResult ParametersListDto)
    (interested : String) (dto : ReceivedPacketDto α)
    (ht : dto.packet.type = "PeriodicData") :
    (dto.packet.content.data_format.parameter_identifiers.parameter_identifiers ≠ [] →
      handle svc interested dto =
        handleWithParams interested dto.packet.content
          dto.packet.content.data_format.parameter_identifiers.parameter_identifiers [] ∧
      (handle svc interested dto).lookup_calls = []) ∧
    (dto.packet.content.data_format.parameter_identifiers.parameter_identifiers = [] →
      (handle svc interested dto).lookup_calls =
        [(dto.data_source, dto.packet.content.data_format.data_format_identifier)] ∧
      (¬((svc dto.data_source dto.packet.content.data_format.data_format_identifier).success = true ∧
          (svc dto.data_source dto.packet.content.data_format.data_format_identifier).data ≠ none) →
        handle svc interested dto =
          { records := [], errors := ["Failed to get parameters"]
            lookup_calls := [(dto.data_source, dto.packet.content.data_format.data_format_identifier)]
            crashed := false })) := by
  constructor
  · intro hne
    refine ⟨handle_periodic_embedded svc interested dto ht hne, ?_⟩
    rw [handle_periodic_embedded svc interested dto ht hne]
    exact handleWithParams_lookup_calls _ _ _ _
  · intro hemp
    rw [handle_periodic_lookup svc interested dto ht hemp]
    constructor
    · by_cases hres :
        (svc dto.data_source dto.packet.content.data_format.data_format_identifier).success = true ∧
          (svc dto.data_source dto.packet.content.data_format.data_format_identifier).data ≠ none
      · rw [if_pos hres]
        exact handleWithParams_lookup_calls _ _ _ _
      · rw [if_neg hres]
    · intro hres
      rw [if_neg hres]

/-- Witness for C5: an envelope with the embedded list `["A"]` never
triggers a lookup call, and an envelope with an empty embedded list and a
failing lookup service yields the error outcome with exactly one lookup
call. -/
theorem parameter_resolution_paths_witness :
    (handle (α := Int) (fun _ _ => { success := false, data := none }) interestedParameter
        { data_source := "SampleDataSource"
          packet :=
            { type := "PeriodicData"
              content :=
                { data_format :=
                    { data_format_identifier := "df"
                      parameter_identifiers := { parameter_identifiers := ["A"] } }
                  start_time := 0, interval := 1,
                  columns := [SampleColumn.otherList] } } }).lookup_calls = [] ∧
    handle (α := Int) (fun _ _ => { success := false, data := none }) interestedParameter
        { data_source := "SampleDataSource"
          packet :=
            { type := "PeriodicData"
              content :=
                { data_format :=
                    { data_format_identifier := "df"
                      parameter_identifiers := { parameter_identifiers := [] } }
                  start_time := 0, interval := 1, columns := [] } } } =
      { records := [], errors := ["Failed to get parameters"]
        lookup_calls := [("SampleDataSource", "df")], crashed := false } := by
  constructor
  · exact ((parameter_resolution_paths (fun _ _ => { success := false, data := none })
      interestedParameter _ rfl).1 (by decide)).2
  · exact ((parameter_resolution_paths (fun _ _ => { success := false, data := none })
      interestedParameter _ rfl).2 rfl).2 (by decide)

/-- C10: on a periodic payload whose resolved parameter list — embedded or
obtained from the lookup service — matches the column count, where every
column whose parameter matches the configured parameter of interest is not
a double-sample column, `handle` emits zero records, logs no error, and
does not raise — only double-sample columns are ever projected. -/
theorem non_double_column_projects_nothing
    (svc : String → String → ApiResult ParametersListDto) (dto : ReceivedPacketDto α)
    (ps : List String)
    (ht : dto.packet.type = "PeriodicData")
    (hres : resolvedParams svc dto = some ps)
    (hlen : ps.length = dto.packet.content.columns.length)
    (hcols : ∀ pc ∈ ps.zip dto.packet.content.columns,
      pc.1 = interestedParameter → pc.2 = SampleColumn.otherList) :
    (handle svc interestedParameter dto).records = [] ∧
    (handle svc interestedParameter dto).errors = [] ∧
    (handle svc interestedParameter dto).crashed = false := by
  rcases handle_eq_handleWithParams_of_resolved svc interestedParameter dto ps ht hres
    with h | h <;>
    rw [h, handleWithParams_no_double interestedParameter dto.packet.content ps _ hlen hcols] <;>
    exact ⟨rfl, rfl, rfl⟩

/-- Witness for C10 through both resolution paths: the parameter of
interest matches, but its column is not a double-sample column — nothing is
emitted and no error is produced, whether the parameter list is embedded or
resolved through the lookup service. -/
theorem non_double_column_projects_nothing_witness :
    ((handle failSvc interestedParameter (nonDoubleDto ["vCar:Chassis"])).records = [] ∧
      (handle failSvc interestedParameter (nonDoubleDto ["vCar:Chassis"])).errors = []) ∧
    ((handle vcarOnlySvc interestedParameter (nonDoubleDto [])).records = [] ∧
      (handle vcarOnlySvc interestedParameter (nonDoubleDto [])).errors = []) := by
  have hcols1 : ∀ (e : List String), ∀ pc ∈ (["vCar:Chassis"] : List String).zip
      (nonDoubleDto e).packet.content.columns,
      pc.1 = interestedParameter → pc.2 = SampleColumn.otherList := by
    intro e pc hpc hfst
    simp only [nonDoubleDto, List.zip_cons_cons, List.zip_nil_right,
      List.mem_singleton] at hpc
    rw [hpc]
  constructor
  · obtain ⟨h1, h2, h3⟩ := non_double_column_projects_nothing failSvc
      (nonDoubleDto ["vCar:Chassis"]) ["vCar:Chassis"] rfl (by decide) (by decide)
      (hcols1 ["vCar:Chassis"])
    exact ⟨h1, h2⟩
  · obtain ⟨h1, h2, h3⟩ := non_double_column_projects_nothing vcarOnlySvc
      (nonDoubleDto []) ["vCar:Chassis"] rfl (by decide) (by decide) (hcols1 [])
    exact ⟨h1, h2⟩

end SampleUsage
